import Mathlib

/-!
Shallow embedding of the frage-mobile driver roster assembly
(`src/app/(driver)/home.tsx`, function `loadRouteBlocks` and helper
`addMinutes`), of the driver status screen's advisory list for bus
changes (unnamed driver screen, `loadData` section 2), and of the
teacher coaching board (`src/app/(teacher)/coach.tsx`, `NEXT_STATUS`,
`handleStatusToggle`, `handleSendReports`, `isAllSent`).

JavaScript-level conventions are modelled explicitly: optional values
are `Option String`, truthiness of a string treats the empty string as
falsy, `a || b` on strings is `jsOrStr`, and string comparison is
lexicographic on characters (matching JS UTF-16 comparison on the
ASCII dates used here).
-/

/-- JS truthiness of a string: the empty string is falsy. -/
def strTruthy (s : String) : Bool := !(s == "")

/-- JS truthiness of a possibly-undefined string (`undefined` is falsy). -/
def optTruthy (o : Option String) : Bool :=
  match o with
  | some s => strTruthy s
  | none => false

/-- JS string short-circuit `o || d` where `o` may be undefined or empty. -/
def jsOrStr (o : Option String) (d : String) : String :=
  if optTruthy o then o.getD "" else d

/-- Lexicographic comparison on character lists, mirroring the JS
relational operator `<=` on strings. -/
def charsLe : List Char → List Char → Bool
  | [], _ => true
  | _ :: _, [] => false
  | a :: as, b :: bs => if a < b then true else if b < a then false else charsLe as bs

/-- JS string comparison `a <= b`. -/
def strLeB (a b : String) : Bool := charsLe a.data b.data

/-- Splits a character list at each colon, mirroring `time.split(':')`. -/
def splitColonAux : List Char → List Char → List (List Char)
  | [], acc => [acc.reverse]
  | c :: cs, acc =>
      if c = ':' then acc.reverse :: splitColonAux cs []
      else splitColonAux cs (c :: acc)

/-- Parses a decimal digit character. -/
def charDigit (c : Char) : Option Nat :=
  if '0' ≤ c ∧ c ≤ '9' then some (c.toNat - 48) else none

/-- Parses an all-digit character list; `none` models JS `NaN` for
non-numeric input, and the empty list parses to `0` as `Number('')` does. -/
def parseNatAux : List Char → Nat → Option Nat
  | [], acc => some acc
  | c :: cs, acc =>
      match charDigit c with
      | some d => parseNatAux cs (acc * 10 + d)
      | none => none

/-- JS `Number(s)` on the digit strings used for times; non-numeric
input (JS `NaN`) is mapped to 0 and is outside the modelled domain. -/
def jsNumber (l : List Char) : Nat := (parseNatAux l 0).getD 0

/-- Minutes since midnight encoded by an `HH:MM` string:
`parts[0] * 60 + parts[1]` after `time.split(':').map(Number)`. -/
def timeToMinutes (time : String) : Nat :=
  let parts := splitColonAux time.data []
  jsNumber (parts.getD 0 []) * 60 + jsNumber (parts.getD 1 [])

/-- Mirrors `String(n).padStart(2, '0')` for the hour/minute components. -/
def padTwo (n : Nat) : String :=
  if n < 10 then "0" ++ toString n else toString n

/-- The source's `addMinutes`: total minutes, hour wrapped at 24,
re-rendered as a padded `HH:MM` string. -/
def addMinutes (time : String) (minutes : Nat) : String :=
  let totalMinutes := timeToMinutes time + minutes
  padTwo (totalMinutes / 60 % 24) ++ ":" ++ padTwo (totalMinutes % 60)

/-- Rendering of a minutes-since-midnight count as `HH:MM`; used to state
the specification formula `T0 + sum(m_1..m_k)` reduced modulo 1440. -/
def minutesToHHMM (x : Nat) : String :=
  padTwo (x / 60) ++ ":" ++ padTwo (x % 60)

/-- Payload of a portal request (absence / early pickup / bus change). -/
structure Payload where
  dateStart : Option String
  dateEnd : Option String
  time : Option String
  changeType : Option String
  note : Option String
deriving DecidableEq

/-- Joined student record carried by the driver status screen's request
query (`students ( name, english_name )`). -/
structure ReqStudent where
  name : Option String
  english_name : Option String
deriving DecidableEq

/-- A row of `portal_requests` as read by the driver screens. -/
structure PortalRequest where
  id : String
  student_id : Option String
  type : String
  status : String
  payload : Payload
  students : Option ReqStudent
deriving DecidableEq

/-- The date-range activity check of `loadRouteBlocks`:
`dateEnd ? (today >= dateStart && today <= dateEnd) : today === dateStart`. -/
def isActiveToday (today : String) (p : Payload) : Bool :=
  if optTruthy p.dateEnd then
    (match p.dateStart with
     | some ds => strLeB ds today
     | none => false) && strLeB today (p.dateEnd.getD "")
  else
    match p.dateStart with
    | some ds => today == ds
    | none => false

/-- The excusal set built by `loadRouteBlocks`: requests of type
`absence` or `early_pickup` with status `pending` (the query's filters),
kept when active today and carrying a truthy `student_id`. -/
def absentIds (today : String) (reqs : List PortalRequest) : List String :=
  ((reqs.filter (fun r =>
      (r.type == "absence" || r.type == "early_pickup") && r.status == "pending")).filter
    (fun r => isActiveToday today r.payload && optTruthy r.student_id)).map
    (fun r => r.student_id.getD "")

/-- A parent row joined under a student (`parents ( phone )`). -/
structure ParentRec where
  phone : Option String
deriving DecidableEq

/-- A student row as read by the roster query. -/
structure Student where
  id : String
  student_name : Option String
  english_first_name : Option String
  parents : Option ParentRec
deriving DecidableEq

/-- A `route_blocks` row with its nested students; a `none` entry in
`route_block_students` models a null joined student record. -/
structure RouteBlock where
  id : String
  label : String
  block_order : Nat
  estimated_extra_time : Option Nat
  route_block_students : List (Option Student)
deriving DecidableEq

/-- The per-student display record emitted into a stop's rider list. -/
structure StudentInfo where
  id : String
  name : String
  phone : String
deriving DecidableEq

/-- One emitted stop: block id, label, computed display time, riders. -/
structure StopBlock where
  blockId : String
  label : String
  time : String
  students : List StudentInfo
deriving DecidableEq

/-- A `transport_time_slots` row. -/
structure TimeSlot where
  id : String
  label : String
  departure_time : String
  route_type : String
deriving DecidableEq

/-- The rider display mapping of `loadRouteBlocks`:
name is `s.student_name || s.english_first_name || '이름 없음'` and
phone is `s.parents?.phone || ''`. -/
def displayStudent (s : Student) : StudentInfo :=
  { id := s.id
    name := jsOrStr s.student_name (jsOrStr s.english_first_name "이름 없음")
    phone := jsOrStr (s.parents.bind ParentRec.phone) "" }

/-- The block traversal of `loadRouteBlocks`: a running total of
incremental minutes (`accumulated += block.estimated_extra_time || 0`),
a display time per block, and the filtered, mapped rider list
(`.map(rbs => rbs.students).filter(s => s && !absentIds.has(s.id))`). -/
def assembleStops (absent : List String) (base : String) :
    Nat → List RouteBlock → List StopBlock
  | _, [] => []
  | acc, b :: bs =>
      let acc2 := acc + b.estimated_extra_time.getD 0
      { blockId := b.id
        label := b.label
        time := addMinutes base acc2
        students := ((b.route_block_students.filterMap id).filter
          (fun s => !(absent.contains s.id))).map displayStudent } ::
        assembleStops absent base acc2 bs

/-- The departure time used as base: `slot?.departure_time || '00:00'`. -/
def slotBaseTime (slot : Option TimeSlot) : String :=
  jsOrStr (slot.map TimeSlot.departure_time) "00:00"

/-- The roster assembly of the driver home screen. `route` is the
`maybeSingle` result of the `bus_routes` lookup for (bus, slot): when it
is `none` the function returns the empty stop list along the source's
early-return path (a normal return, not an error). -/
def loadRouteBlocks (route : Option String) (blocks : List RouteBlock)
    (reqs : List PortalRequest) (today : String) (slot : Option TimeSlot) :
    List StopBlock :=
  match route with
  | none => []
  | some _ => assembleStops (absentIds today reqs) (slotBaseTime slot) 0 blocks

/-- An advisory item of the driver status screen's bus-change section. -/
structure ChangeItem where
  id : String
  studentName : String
  note : String
deriving DecidableEq

/-- The human-readable label for a bus-change type
(`getChangeTypeLabel` on the driver status screen). -/
def getChangeTypeLabel (changeType : Option String) : String :=
  match changeType with
  | some "no_bus" => "버스 미탑승"
  | some "pickup_change" => "등원 변경"
  | some "dropoff_change" => "하원 변경"
  | _ => "차량 변경"

/-- The bus-change advisory list of the driver status screen (`loadData`
section 2): requests of type `bus_change` with status `pending` (the
query's filters), surfaced when `today === dateStart`, carrying the
student's display name and `payload?.note || getChangeTypeLabel(...)`. -/
def changeItems (today : String) (reqs : List PortalRequest) : List ChangeItem :=
  ((reqs.filter (fun r => r.type == "bus_change" && r.status == "pending")).filter
    (fun r => r.payload.dateStart == some today)).map
    (fun r =>
      { id := r.id
        studentName := jsOrStr (r.students.bind ReqStudent.name)
          (jsOrStr (r.students.bind ReqStudent.english_name) "이름 없음")
        note := jsOrStr r.payload.note (getChangeTypeLabel r.payload.changeType) })

/-- The four commitment statuses of the coach screen. The third source
status is the string 'partial', a reserved word in Lean, rendered here
as `partly`. -/
inductive CommitmentStatus where
  | unchecked
  | done
  | partly
  | not_done
deriving DecidableEq

/-- The fixed cyclic successor table `NEXT_STATUS` of the coach screen. -/
def NEXT_STATUS : CommitmentStatus → CommitmentStatus
  | .unchecked => .done
  | .done => .partly
  | .partly => .not_done
  | .not_done => .unchecked

/-- The in-memory commitment grid, a JS object keyed by
`student_id + '-' + book_id` strings. -/
abbrev Grid : Type := List (String × CommitmentStatus)

/-- The grid cell key template literal of the coach screen. -/
def cellKey (studentId bookId : String) : String := studentId ++ "-" ++ bookId

/-- JS object update `{ ...prev, [key]: v }`: an existing key keeps its
position and is overwritten; a new key is appended. -/
def setCell : Grid → String → CommitmentStatus → Grid
  | [], k, v => [(k, v)]
  | e :: rest, k, v =>
      if e.1 == k then (k, v) :: setCell rest k v else e :: setCell rest k v

/-- The grid read with default, `commitments[key] || 'unchecked'`. -/
def readCell (m : Grid) (k : String) : CommitmentStatus :=
  ((m.find? (fun e => e.1 == k)).map Prod.snd).getD .unchecked

/-- The three grid snapshots produced by one `handleStatusToggle` call:
the optimistic grid shown before the network resolves, the final grid
after it resolves, and whether the error alert was shown. -/
structure ToggleResult where
  optimistic : Grid
  final : Grid
  errorShown : Bool

/-- The cell-advance handler `handleStatusToggle`: reads the current
status (default `unchecked`), advances via `NEXT_STATUS`, applies the
optimistic update, and on persistence failure reverts the cell to the
captured pre-advance value and surfaces an error alert. `netOk` stands
for whether the POST to the commitments endpoint succeeded. -/
def handleStatusToggle (m : Grid) (studentId bookId : String) (netOk : Bool) :
    ToggleResult :=
  let key := cellKey studentId bookId
  let currentStatus := readCell m key
  let nextStatus := NEXT_STATUS currentStatus
  let optimistic := setCell m key nextStatus
  if netOk then
    { optimistic := optimistic, final := optimistic, errorShown := false }
  else
    { optimistic := optimistic, final := setCell optimistic key currentStatus,
      errorShown := true }

/-- The grid after one successful tap on a cell. -/
def tapCell (m : Grid) (studentId bookId : String) : Grid :=
  (handleStatusToggle m studentId bookId true).final

/-- A student row of the coach screen. -/
structure CoachStudent where
  id : String
  student_name : String
  english_first_name : String
deriving DecidableEq

/-- The coach screen state relevant to sending reports. -/
structure CoachState where
  selectedClassId : String
  students : List CoachStudent
  commitments : Grid
  sendStatuses : List (String × String)
  sending : Bool

/-- Lookup in the send-status map, `sendStatuses[id]` (`none` models
an absent key, JS `undefined`). -/
def lookupSend (m : List (String × String)) (k : String) : Option String :=
  (m.find? (fun e => e.1 == k)).map Prod.snd

/-- The source's `isAllSent`:
`students.length > 0 && students.every(s => sendStatuses[s.id] === 'sent')`. -/
def isAllSent (st : CoachState) : Bool :=
  !st.students.isEmpty &&
    st.students.all (fun s => lookupSend st.sendStatuses s.id == some "sent")

/-- The observable outcome of a send attempt. -/
inductive SendOutcome where
  | rejected (msg : String)
  | success
  | failed
  | blocked
deriving DecidableEq

/-- The report-send handler `handleSendReports`: rejects with an alert
and no network call when there is no selected class or no student, or
when every grid value is `unchecked`; otherwise calls the send endpoint
(`netOk` stands for its success) and on success replaces the send-status
map, marking every student of the class `sent`. The returned `Bool` is
whether a network call was made. -/
def handleSendReports (st : CoachState) (netOk : Bool) :
    CoachState × Bool × SendOutcome :=
  if !(strTruthy st.selectedClassId) || st.students.isEmpty then
    (st, false, .rejected "No students to send reports to")
  else if !((st.commitments.map Prod.snd).any (fun s => !(s == .unchecked))) then
    (st, false, .rejected "No coaching records to send")
  else if netOk then
    ({ st with
        sendStatuses := st.students.map (fun s => (s.id, "sent"))
        sending := false }, true, .success)
  else
    ({ st with sending := false }, true, .failed)

/-- The screen-level send action: the send button carries
`disabled={sending || isAllSent}`, so a press reaches
`handleSendReports` only when that guard is off. -/
def pressSend (st : CoachState) (netOk : Bool) :
    CoachState × Bool × SendOutcome :=
  if st.sending || isAllSent st then (st, false, .blocked)
  else handleSendReports st netOk

/-- A concrete three-block route used to evaluate the roster assembly:
block orders 1, 2, 3 with incremental minutes 5, 10, 0. -/
def sampleBlocks : List RouteBlock :=
  [{ id := "b1", label := "Stop A", block_order := 1, estimated_extra_time := some 5,
     route_block_students := [] },
   { id := "b2", label := "Stop B", block_order := 2, estimated_extra_time := some 10,
     route_block_students := [] },
   { id := "b3", label := "Stop C", block_order := 3, estimated_extra_time := some 0,
     route_block_students := [] }]

/-- A concrete time slot departing at 08:00. -/
def sampleSlot : Option TimeSlot :=
  some { id := "t1", label := "AM", departure_time := "08:00", route_type := "pickup" }

/-- A concrete pending absence request for student s1 starting today
(2026-10-11), used to evaluate the excusal filter. -/
def sampleAbsenceReq : PortalRequest :=
  { id := "r1", student_id := some "s1", type := "absence", status := "pending",
    payload := { dateStart := some "2026-10-11", dateEnd := none, time := none,
                 changeType := none, note := none },
    students := none }

/-- A concrete one-block route carrying students s1 and s2. -/
def sampleRosterBlocks : List RouteBlock :=
  [{ id := "b1", label := "Stop A", block_order := 1, estimated_extra_time := some 5,
     route_block_students :=
       [some { id := "s1", student_name := some "김철수", english_first_name := some "John",
               parents := some { phone := some "010-1234-5678" } },
        some { id := "s2", student_name := some "이영희", english_first_name := none,
               parents := none }] }]

/-- A concrete pending bus-change request for student s3 starting today
(2026-10-11). -/
def sampleBusChangeReq : PortalRequest :=
  { id := "r2", student_id := some "s3", type := "bus_change", status := "pending",
    payload := { dateStart := some "2026-10-11", dateEnd := none, time := none,
                 changeType := some "no_bus", note := none },
    students := some { name := some "박민수", english_name := some "Max" } }

theorem readCell_setCell (m : Grid) (k : String) (v : CommitmentStatus) :
    readCell (setCell m k v) k = v := by
  induction m with
  | nil => simp [setCell, readCell]
  | cons e rest ih =>
    by_cases h : e.1 == k
    · simp [setCell, h, readCell]
    · simpa [setCell, h, readCell, List.find?] using ih

theorem readCell_tapCell (m : Grid) (studentId bookId : String) :
    readCell (tapCell m studentId bookId) (cellKey studentId bookId) =
      NEXT_STATUS (readCell m (cellKey studentId bookId)) := by
  simp [tapCell, handleStatusToggle, readCell_setCell]

/-- C3: a failed persistence call during a status toggle leaves the
cell's visible status exactly as it was before the tap, an error is
surfaced, and the optimistic grid shown before the network resolves
already holds the advanced value. -/
theorem toggle_failure_exact_rollback (m : Grid) (studentId bookId : String) :
    readCell (handleStatusToggle m studentId bookId false).final
        (cellKey studentId bookId) = readCell m (cellKey studentId bookId) ∧
    (handleStatusToggle m studentId bookId false).errorShown = true ∧
    readCell (handleStatusToggle m studentId bookId false).optimistic
        (cellKey studentId bookId) =
      NEXT_STATUS (readCell m (cellKey studentId bookId)) := by
  refine ⟨?_, rfl, ?_⟩ <;> simp [handleStatusToggle, readCell_setCell]

/-- C4: the per-cell transition is the fixed 4-cycle
unchecked, done, partial, not_done; every tap advances exactly one step,
and four successful taps starting from `unchecked` return the cell to
`unchecked`. -/
theorem status_cycle_closure :
    (NEXT_STATUS .unchecked = .done ∧ NEXT_STATUS .done = .partly ∧
     NEXT_STATUS .partly = .not_done ∧ NEXT_STATUS .not_done = .unchecked) ∧
    (∀ s, NEXT_STATUS (NEXT_STATUS (NEXT_STATUS (NEXT_STATUS s))) = s) ∧
    (∀ (m : Grid) (sid bid : String) (netOk : Bool),
      readCell (handleStatusToggle m sid bid netOk).optimistic (cellKey sid bid) =
        NEXT_STATUS (readCell m (cellKey sid bid))) ∧
    (∀ (m : Grid) (sid bid : String),
      readCell m (cellKey sid bid) = .unchecked →
      readCell (tapCell (tapCell (tapCell (tapCell m sid bid) sid bid) sid bid) sid bid)
        (cellKey sid bid) = .unchecked) := by
  refine ⟨⟨rfl, rfl, rfl, rfl⟩, ?_, ?_, ?_⟩
  · intro s; cases s <;> rfl
  · intro m sid bid netOk
    cases netOk <;> simp [handleStatusToggle, readCell_setCell]
  · intro m sid bid h
    simp [readCell_tapCell, h, NEXT_STATUS]

theorem status_cycle_closure_witness :
    readCell [] (cellKey "s1" "b1") = .unchecked ∧
    readCell (tapCell (tapCell (tapCell (tapCell [] "s1" "b1") "s1" "b1") "s1" "b1") "s1" "b1")
      (cellKey "s1" "b1") = .unchecked :=
  ⟨rfl, status_cycle_closure.2.2.2 [] "s1" "b1" rfl⟩

/-- C10: a cell with no grid entry reads as `unchecked`, advancing such
a cell yields `done` on the first tap (both in the optimistic view and
in the final grid on success), and every status read from the grid is
one of the four enumeration values. -/
theorem grid_defaults_and_enum (m : Grid) (k sid bid : String) :
    (m.find? (fun e => e.1 == k) = none → readCell m k = .unchecked) ∧
    (readCell m (cellKey sid bid) = .unchecked →
      readCell (handleStatusToggle m sid bid true).optimistic (cellKey sid bid) = .done ∧
      readCell (handleStatusToggle m sid bid true).final (cellKey sid bid) = .done) ∧
    (readCell m k = .unchecked ∨ readCell m k = .done ∨
      readCell m k = .partly ∨ readCell m k = .not_done) := by
  refine ⟨?_, ?_, ?_⟩
  · intro h; simp [readCell, h]
  · intro h
    constructor <;> simp [handleStatusToggle, readCell_setCell, h, NEXT_STATUS]
  · cases hv : readCell m k <;> simp

theorem grid_defaults_and_enum_witness :
    readCell [] "s1-b1" = .unchecked ∧
    readCell (handleStatusToggle [] "s1" "b1" true).optimistic (cellKey "s1" "b1") = .done ∧
    readCell (handleStatusToggle [] "s1" "b1" true).final (cellKey "s1" "b1") = .done :=
  ⟨(grid_defaults_and_enum [] "s1-b1" "s1" "b1").1 rfl,
   (grid_defaults_and_enum [] "s1-b1" "s1" "b1").2.1 rfl⟩

theorem lookupSend_map_sent (l : List CoachStudent) (x : CoachStudent) (hx : x ∈ l) :
    lookupSend (l.map (fun s => (s.id, "sent"))) x.id = some "sent" := by
  induction l with
  | nil => cases hx
  | cons a rest ih =>
    by_cases h : a.id == x.id
    · simp [lookupSend, List.find?, h]
    · have hxr : x ∈ rest := by
        rcases List.mem_cons.mp hx with he | hr
        · subst he; simp at h
        · exact hr
      simpa [lookupSend, List.find?, h] using ih hxr

/-- C5: a report send attempted while every grid value is `unchecked`
is rejected with a descriptive reason, makes no network call, and
leaves the state (including send statuses) unchanged. -/
theorem send_all_unchecked_rejected (st : CoachState) (netOk : Bool)
    (hall : ∀ e ∈ st.commitments, e.2 = CommitmentStatus.unchecked) :
    (handleSendReports st netOk).1 = st ∧
    (handleSendReports st netOk).2.1 = false ∧
    ∃ msg, (handleSendReports st netOk).2.2 = SendOutcome.rejected msg := by
  have h2 : ((st.commitments.map Prod.snd).any (fun s => !(s == CommitmentStatus.unchecked))) = false := by
    rw [List.any_eq_false]
    intro x hx
    rcases List.mem_map.mp hx with ⟨e, he, rfl⟩
    simp [hall e he]
  by_cases h1 : !(strTruthy st.selectedClassId) || st.students.isEmpty
  · exact ⟨by simp [handleSendReports, h1], by simp [handleSendReports, h1],
      "No students to send reports to", by simp [handleSendReports, h1]⟩
  · exact ⟨by simp [handleSendReports, h1, h2], by simp [handleSendReports, h1, h2],
      "No coaching records to send", by simp [handleSendReports, h1, h2]⟩

theorem send_all_unchecked_rejected_witness :
    (∀ e ∈ ([("s1-b1", CommitmentStatus.unchecked)] : Grid), e.2 = CommitmentStatus.unchecked) ∧
    ((handleSendReports
        { selectedClassId := "c1"
          students := [{ id := "s1", student_name := "김철수", english_first_name := "John" }]
          commitments := [("s1-b1", CommitmentStatus.unchecked)]
          sendStatuses := []
          sending := false } true).1 =
      { selectedClassId := "c1"
        students := [{ id := "s1", student_name := "김철수", english_first_name := "John" }]
        commitments := [("s1-b1", CommitmentStatus.unchecked)]
        sendStatuses := []
        sending := false } ∧
    (handleSendReports
        { selectedClassId := "c1"
          students := [{ id := "s1", student_name := "김철수", english_first_name := "John" }]
          commitments := [("s1-b1", CommitmentStatus.unchecked)]
          sendStatuses := []
          sending := false } true).2.1 = false ∧
    ∃ msg, (handleSendReports
        { selectedClassId := "c1"
          students := [{ id := "s1", student_name := "김철수", english_first_name := "John" }]
          commitments := [("s1-b1", CommitmentStatus.unchecked)]
          sendStatuses := []
          sending := false } true).2.2 = SendOutcome.rejected msg) :=
  ⟨by decide, send_all_unchecked_rejected _ true (by decide)⟩

/-- C6: a successful report send marks every student of the class as
sent for the date, the send gate then reports the class fully sent, and
any further press of the send action is blocked without a network call
while the sent statuses persist unchanged. -/
theorem send_one_way_gate (st : CoachState) (netOk2 : Bool)
    (hclass : strTruthy st.selectedClassId = true)
    (hstu : st.students ≠ [])
    (hchk : (st.commitments.map Prod.snd).any
      (fun s => !(s == CommitmentStatus.unchecked)) = true) :
    (handleSendReports st true).2.2 = SendOutcome.success ∧
    (handleSendReports st true).2.1 = true ∧
    (∀ s ∈ st.students,
      lookupSend (handleSendReports st true).1.sendStatuses s.id = some "sent") ∧
    isAllSent (handleSendReports st true).1 = true ∧
    pressSend (handleSendReports st true).1 netOk2 =
      ((handleSendReports st true).1, false, SendOutcome.blocked) := by
  have hempty : st.students.isEmpty = false := by
    cases hs : st.students with
    | nil => exact absurd hs hstu
    | cons a l => rfl
  have hres : handleSendReports st true =
      ({ st with
          sendStatuses := st.students.map (fun s => (s.id, "sent"))
          sending := false }, true, SendOutcome.success) := by
    simp [handleSendReports, hclass, hempty, hchk]
  have hall2 : (st.students.all
      (fun s => lookupSend (st.students.map (fun s2 => (s2.id, "sent"))) s.id
        == some "sent")) = true := by
    rw [List.all_eq_true]
    intro s hs
    simp [lookupSend_map_sent st.students s hs]
  have hall : isAllSent (handleSendReports st true).1 = true := by
    rw [hres]
    simp [isAllSent, hempty, hall2]
  refine ⟨by rw [hres], by rw [hres], ?_, hall, ?_⟩
  · intro s hs
    rw [hres]
    exact lookupSend_map_sent st.students s hs
  · have hsending : (handleSendReports st true).1.sending = false := by rw [hres]
    simp [pressSend, hall, hsending]

theorem send_one_way_gate_witness :
    (strTruthy ("c1" : String) = true ∧
     ([{ id := "s1", student_name := "김철수", english_first_name := "John" },
       { id := "s2", student_name := "이영희", english_first_name := "Amy" }] :
        List CoachStudent) ≠ [] ∧
     ((([("s1-b1", CommitmentStatus.done)] : Grid).map Prod.snd).any
       (fun s => !(s == CommitmentStatus.unchecked)) = true)) ∧
    ((handleSendReports
        { selectedClassId := "c1"
          students := [{ id := "s1", student_name := "김철수", english_first_name := "John" },
            { id := "s2", student_name := "이영희", english_first_name := "Amy" }]
          commitments := [("s1-b1", CommitmentStatus.done)]
          sendStatuses := []
          sending := false } true).2.2 = SendOutcome.success ∧
     (handleSendReports
        { selectedClassId := "c1"
          students := [{ id := "s1", student_name := "김철수", english_first_name := "John" },
            { id := "s2", student_name := "이영희", english_first_name := "Amy" }]
          commitments := [("s1-b1", CommitmentStatus.done)]
          sendStatuses := []
          sending := false } true).2.1 = true ∧
     (∀ s ∈ ([{ id := "s1", student_name := "김철수", english_first_name := "John" },
            { id := "s2", student_name := "이영희", english_first_name := "Amy" }] :
          List CoachStudent),
        lookupSend (handleSendReports
          { selectedClassId := "c1"
            students := [{ id := "s1", student_name := "김철수", english_first_name := "John" },
              { id := "s2", student_name := "이영희", english_first_name := "Amy" }]
            commitments := [("s1-b1", CommitmentStatus.done)]
            sendStatuses := []
            sending := false } true).1.sendStatuses s.id = some "sent") ∧
     isAllSent (handleSendReports
        { selectedClassId := "c1"
          students := [{ id := "s1", student_name := "김철수", english_first_name := "John" },
            { id := "s2", student_name := "이영희", english_first_name := "Amy" }]
          commitments := [("s1-b1", CommitmentStatus.done)]
          sendStatuses := []
          sending := false } true).1 = true ∧
     pressSend (handleSendReports
        { selectedClassId := "c1"
          students := [{ id := "s1", student_name := "김철수", english_first_name := "John" },
            { id := "s2", student_name := "이영희", english_first_name := "Amy" }]
          commitments := [("s1-b1", CommitmentStatus.done)]
          sendStatuses := []
          sending := false } true).1 false =
       ((handleSendReports
          { selectedClassId := "c1"
            students := [{ id := "s1", student_name := "김철수", english_first_name := "John" },
              { id := "s2", student_name := "이영희", english_first_name := "Amy" }]
            commitments := [("s1-b1", CommitmentStatus.done)]
            sendStatuses := []
            sending := false } true).1, false, SendOutcome.blocked)) :=
  ⟨⟨by decide, by decide, by decide⟩,
   send_one_way_gate _ false (by decide) (by decide) (by decide)⟩

theorem addMinutes_eq_minutesToHHMM (t : String) (m : Nat) :
    addMinutes t m = minutesToHHMM ((timeToMinutes t + m) % 1440) := by
  unfold addMinutes minutesToHHMM
  have h1440 : (1440 : Nat) = 60 * 24 := by norm_num
  have h1 : (timeToMinutes t + m) % 1440 / 60 = (timeToMinutes t + m) / 60 % 24 := by
    rw [h1440, Nat.mod_mul_right_div_self]
  have h2 : (timeToMinutes t + m) % 1440 % 60 = (timeToMinutes t + m) % 60 :=
    Nat.mod_mod_of_dvd _ (by norm_num)
  rw [h1, h2]

theorem assembleStops_length (absent : List String) (base : String) :
    ∀ (blocks : List RouteBlock) (acc : Nat),
      (assembleStops absent base acc blocks).length = blocks.length := by
  intro blocks
  induction blocks with
  | nil => intro acc; rfl
  | cons b bs ih => intro acc; simp [assembleStops, ih]

theorem assembleStops_map_blockId (absent : List String) (base : String) :
    ∀ (blocks : List RouteBlock) (acc : Nat),
      (assembleStops absent base acc blocks).map StopBlock.blockId =
        blocks.map RouteBlock.id := by
  intro blocks
  induction blocks with
  | nil => intro acc; rfl
  | cons b bs ih => intro acc; simp [assembleStops, ih]

theorem assembleStops_get_time (absent : List String) (base : String) :
    ∀ (blocks : List RouteBlock) (acc k : Nat)
      (h : k < (assembleStops absent base acc blocks).length),
      ((assembleStops absent base acc blocks).get ⟨k, h⟩).time =
        addMinutes base
          (acc + ((blocks.take (k+1)).map (fun b => b.estimated_extra_time.getD 0)).sum) := by
  intro blocks
  induction blocks with
  | nil => intro acc k h; simp [assembleStops] at h
  | cons b bs ih =>
    intro acc k h
    cases k with
    | zero => simp [assembleStops]
    | succ k2 =>
      have h2 : k2 < (assembleStops absent base (acc + b.estimated_extra_time.getD 0) bs).length := by
        have := h
        simp only [assembleStops, List.length_cons] at this
        omega
      have hget : (assembleStops absent base acc (b :: bs)).get ⟨k2 + 1, h⟩ =
          (assembleStops absent base (acc + b.estimated_extra_time.getD 0) bs).get ⟨k2, h2⟩ := by
        simp [assembleStops]
      rw [hget, ih]
      congr 1
      simp [List.take_succ_cons, Nat.add_assoc]

/-- C1: for a found route, the emitted stop list follows the block list
order exactly (block ids in order), and the k-th stop's display time is
the slot departure plus the prefix sum of incremental minutes, reduced
modulo 1440 minutes. -/
theorem roster_stop_times (blocks : List RouteBlock) (reqs : List PortalRequest)
    (today : String) (slot : Option TimeSlot) (routeId : String)
    (_hsorted : blocks.Pairwise (fun a b => a.block_order ≤ b.block_order)) :
    (loadRouteBlocks (some routeId) blocks reqs today slot).map StopBlock.blockId =
        blocks.map RouteBlock.id ∧
    ∀ (k : Nat) (h : k < (loadRouteBlocks (some routeId) blocks reqs today slot).length),
      ((loadRouteBlocks (some routeId) blocks reqs today slot).get ⟨k, h⟩).time =
        minutesToHHMM ((timeToMinutes (slotBaseTime slot) +
          ((blocks.take (k+1)).map (fun b => b.estimated_extra_time.getD 0)).sum) % 1440) := by
  constructor
  · exact assembleStops_map_blockId _ _ blocks 0
  · intro k h
    have h0 : ((loadRouteBlocks (some routeId) blocks reqs today slot).get ⟨k, h⟩).time =
        addMinutes (slotBaseTime slot)
          (0 + ((blocks.take (k+1)).map (fun b => b.estimated_extra_time.getD 0)).sum) :=
      assembleStops_get_time (absentIds today reqs) (slotBaseTime slot) blocks 0 k h
    rw [Nat.zero_add, addMinutes_eq_minutesToHHMM] at h0
    exact h0

theorem roster_stop_times_witness :
    (sampleBlocks.Pairwise (fun a b => a.block_order ≤ b.block_order)) ∧
    ((loadRouteBlocks (some "route1") sampleBlocks [] "2026-10-11" sampleSlot).map
        StopBlock.blockId = sampleBlocks.map RouteBlock.id ∧
     ∀ (k : Nat) (h : k < (loadRouteBlocks (some "route1") sampleBlocks []
          "2026-10-11" sampleSlot).length),
       ((loadRouteBlocks (some "route1") sampleBlocks [] "2026-10-11" sampleSlot).get
           ⟨k, h⟩).time =
         minutesToHHMM ((timeToMinutes (slotBaseTime sampleSlot) +
           ((sampleBlocks.take (k+1)).map (fun b => b.estimated_extra_time.getD 0)).sum) % 1440)) ∧
    (loadRouteBlocks (some "route1") sampleBlocks [] "2026-10-11" sampleSlot).map
        StopBlock.time = ["08:05", "08:15", "08:15"] :=
  ⟨by decide, roster_stop_times sampleBlocks [] "2026-10-11" sampleSlot "route1" (by decide),
   by decide⟩

/-- C9: when no bus route exists for the selected (vehicle, slot) pair,
the roster assembly returns the empty stop list along its normal return
path; the empty list is the valid not-operating state, not an error. -/
theorem no_route_empty_roster (blocks : List RouteBlock) (reqs : List PortalRequest)
    (today : String) (slot : Option TimeSlot) :
    loadRouteBlocks none blocks reqs today slot = [] := rfl

theorem assembleStops_mem_students (absent : List String) (base : String) :
    ∀ (blocks : List RouteBlock) (acc : Nat) (stop : StopBlock),
      stop ∈ assembleStops absent base acc blocks →
      ∀ info ∈ stop.students,
        ∃ s : Student, info = displayStudent s ∧ absent.contains s.id = false := by
  intro blocks
  induction blocks with
  | nil => intro acc stop h; simp [assembleStops] at h
  | cons b bs ih =>
    intro acc stop h
    rcases List.mem_cons.mp h with he | ht
    · subst he
      intro info hinfo
      simp only [] at hinfo
      rcases List.mem_map.mp hinfo with ⟨s, hs, rfl⟩
      have hp := (List.mem_filter.mp hs).2
      exact ⟨s, rfl, by simpa using hp⟩
    · exact ih _ _ ht

theorem mem_absentIds (today : String) (reqs : List PortalRequest)
    (r : PortalRequest) (sid : String)
    (hr : r ∈ reqs)
    (htype : r.type = "absence" ∨ r.type = "early_pickup")
    (hstatus : r.status = "pending")
    (hactive : isActiveToday today r.payload = true)
    (hsid : r.student_id = some sid)
    (hne : sid ≠ "") :
    sid ∈ absentIds today reqs := by
  unfold absentIds
  apply List.mem_map.mpr
  refine ⟨r, ?_, by rw [hsid]; rfl⟩
  apply List.mem_filter.mpr
  refine ⟨List.mem_filter.mpr ⟨hr, ?_⟩, ?_⟩
  · rcases htype with h | h <;> simp [h, hstatus]
  · simp [hactive, hsid, optTruthy, strTruthy, hne]

/-- C2: a student with a pending absence or early-pickup request active
today (today within the inclusive start/end range, or equal to the start
date when no end date is given) appears in no stop's rider list of the
assembled roster, whatever block the student is assigned to. -/
theorem excused_student_not_on_roster (route : Option String)
    (blocks : List RouteBlock) (reqs : List PortalRequest) (today : String)
    (slot : Option TimeSlot) (r : PortalRequest) (sid : String)
    (hr : r ∈ reqs)
    (htype : r.type = "absence" ∨ r.type = "early_pickup")
    (hstatus : r.status = "pending")
    (hactive : isActiveToday today r.payload = true)
    (hsid : r.student_id = some sid)
    (hne : sid ≠ "") :
    ∀ stop ∈ loadRouteBlocks route blocks reqs today slot,
      ∀ info ∈ stop.students, info.id ≠ sid := by
  have hmem : sid ∈ absentIds today reqs :=
    mem_absentIds today reqs r sid hr htype hstatus hactive hsid hne
  cases route with
  | none => intro stop hstop; simp [loadRouteBlocks] at hstop
  | some routeId =>
    intro stop hstop info hinfo
    have hshape := assembleStops_mem_students (absentIds today reqs)
      (slotBaseTime slot) blocks 0 stop hstop info hinfo
    rcases hshape with ⟨s, rfl, hcontains⟩
    intro heq
    have hid : s.id = sid := by simpa [displayStudent] using heq
    have : (absentIds today reqs).contains s.id = true := by
      rw [hid]
      exact List.elem_eq_true_of_mem hmem
    rw [this] at hcontains
    cases hcontains

theorem excused_student_not_on_roster_witness :
    (sampleAbsenceReq ∈ [sampleAbsenceReq] ∧
     (sampleAbsenceReq.type = "absence" ∨ sampleAbsenceReq.type = "early_pickup") ∧
     sampleAbsenceReq.status = "pending" ∧
     isActiveToday "2026-10-11" sampleAbsenceReq.payload = true ∧
     sampleAbsenceReq.student_id = some "s1" ∧ ("s1" : String) ≠ "") ∧
    (∀ stop ∈ loadRouteBlocks (some "route1") sampleRosterBlocks [sampleAbsenceReq]
        "2026-10-11" sampleSlot,
      ∀ info ∈ stop.students, info.id ≠ "s1") :=
  ⟨⟨by decide, Or.inl rfl, rfl, by decide, rfl, by decide⟩,
   excused_student_not_on_roster (some "route1") sampleRosterBlocks [sampleAbsenceReq]
     "2026-10-11" sampleSlot sampleAbsenceReq "s1"
     (by decide) (Or.inl rfl) rfl (by decide) rfl (by decide)⟩

/-- C7 counterexample: a pending bus-change request that is active
today through its inclusive date range (dateStart 2026-10-10, dateEnd
2026-10-12, today 2026-10-11) produces no advisory item, because the
driver status screen surfaces a bus change only when today equals its
start date. -/
theorem bus_change_advisory_counterexample :
    isActiveToday "2026-10-11"
      { dateStart := some "2026-10-10", dateEnd := some "2026-10-12", time := none,
        changeType := some "no_bus", note := none } = true ∧
    changeItems "2026-10-11"
      [{ id := "r9", student_id := some "s9", type := "bus_change", status := "pending",
         payload := { dateStart := some "2026-10-10", dateEnd := some "2026-10-12",
                      time := none, changeType := some "no_bus", note := none },
         students := none }] = [] := by
  exact ⟨by decide, by decide⟩

/-- C7 (amended): a bus-change request never alters the assembled
roster (prepending one to the request list leaves every stop's rider
list unchanged), and a pending bus-change request whose start date
equals today is surfaced as an advisory item carrying the request id
and the human-readable reason, on the separate driver status screen. -/
theorem bus_change_advisory_only :
    (∀ (route : Option String) (blocks : List RouteBlock) (reqs : List PortalRequest)
        (today : String) (slot : Option TimeSlot) (r : PortalRequest),
        r.type = "bus_change" →
        loadRouteBlocks route blocks (r :: reqs) today slot =
          loadRouteBlocks route blocks reqs today slot) ∧
    (∀ (today : String) (reqs : List PortalRequest) (r : PortalRequest),
        r ∈ reqs → r.type = "bus_change" → r.status = "pending" →
        r.payload.dateStart = some today →
        ∃ item ∈ changeItems today reqs,
          item.id = r.id ∧
          item.note = jsOrStr r.payload.note (getChangeTypeLabel r.payload.changeType)) := by
  constructor
  · intro route blocks reqs today slot r htype
    cases route with
    | none => rfl
    | some rid =>
      have habs : absentIds today (r :: reqs) = absentIds today reqs := by
        unfold absentIds
        rw [List.filter_cons]
        simp [htype]
      simp [loadRouteBlocks, habs]
  · intro today reqs r hr htype hstatus hstart
    have hmem1 : r ∈ reqs.filter
        (fun r2 => r2.type == "bus_change" && r2.status == "pending") :=
      List.mem_filter.mpr ⟨hr, by simp [htype, hstatus]⟩
    have hmem2 : r ∈ (reqs.filter
        (fun r2 => r2.type == "bus_change" && r2.status == "pending")).filter
          (fun r2 => r2.payload.dateStart == some today) :=
      List.mem_filter.mpr ⟨hmem1, by simp [hstart]⟩
    exact ⟨_, List.mem_map_of_mem _ hmem2, rfl, rfl⟩

theorem bus_change_advisory_only_witness :
    (sampleBusChangeReq ∈ [sampleBusChangeReq] ∧
     sampleBusChangeReq.type = "bus_change" ∧
     sampleBusChangeReq.status = "pending" ∧
     sampleBusChangeReq.payload.dateStart = some "2026-10-11") ∧
    loadRouteBlocks (some "route1") sampleRosterBlocks [sampleBusChangeReq]
        "2026-10-11" sampleSlot =
      loadRouteBlocks (some "route1") sampleRosterBlocks [] "2026-10-11" sampleSlot ∧
    ∃ item ∈ changeItems "2026-10-11" [sampleBusChangeReq],
      item.id = sampleBusChangeReq.id ∧
      item.note = jsOrStr sampleBusChangeReq.payload.note
        (getChangeTypeLabel sampleBusChangeReq.payload.changeType) :=
  ⟨⟨by decide, rfl, rfl, rfl⟩,
   bus_change_advisory_only.1 (some "route1") sampleRosterBlocks [] "2026-10-11"
     sampleSlot sampleBusChangeReq rfl,
   bus_change_advisory_only.2 "2026-10-11" [sampleBusChangeReq] sampleBusChangeReq
     (by decide) rfl rfl rfl⟩

/-- C8 counterexample: the rider display name does not prefer the
English name. Student s1 carries both a native name and the English
name John, yet the emitted rider record shows the native name. -/
theorem rider_name_counterexample :
    (loadRouteBlocks (some "route1") sampleRosterBlocks [] "2026-10-11" sampleSlot).map
        (fun stop => stop.students.map StudentInfo.name) = [["김철수", "이영희"]] ∧
    sampleRosterBlocks.map
        (fun b => b.route_block_students.map (fun o => o.map Student.english_first_name)) =
      [[some (some "John"), some none]] ∧
    (("김철수" : String) ≠ "John") := by
  exact ⟨by decide, by decide, by decide⟩

/-- C8 (amended): the rider display name prefers the native-script
name when it is present and non-empty, falls back to the English name,
and falls back to the literal placeholder when both are absent; the
contact phone is the empty string when absent; and every record emitted
in a stop's rider list is such a display record. -/
theorem rider_display_name_precedence :
    (∀ s : Student,
      (optTruthy s.student_name = true →
        (displayStudent s).name = s.student_name.getD "") ∧
      (optTruthy s.student_name = false → optTruthy s.english_first_name = true →
        (displayStudent s).name = s.english_first_name.getD "") ∧
      (optTruthy s.student_name = false → optTruthy s.english_first_name = false →
        (displayStudent s).name = "이름 없음") ∧
      (s.parents.bind ParentRec.phone = none → (displayStudent s).phone = "")) ∧
    (∀ (route : Option String) (blocks : List RouteBlock) (reqs : List PortalRequest)
        (today : String) (slot : Option TimeSlot) (stop : StopBlock),
        stop ∈ loadRouteBlocks route blocks reqs today slot →
        ∀ info ∈ stop.students, ∃ s : Student, info = displayStudent s) := by
  constructor
  · intro s
    refine ⟨?_, ?_, ?_, ?_⟩
    · intro h; simp [displayStudent, jsOrStr, h]
    · intro h1 h2; simp [displayStudent, jsOrStr, h1, h2]
    · intro h1 h2; simp [displayStudent, jsOrStr, h1, h2]
    · intro h; simp [displayStudent, jsOrStr, h, optTruthy]
  · intro route blocks reqs today slot stop hstop info hinfo
    cases route with
    | none => simp [loadRouteBlocks] at hstop
    | some rid =>
      rcases assembleStops_mem_students (absentIds today reqs) (slotBaseTime slot)
        blocks 0 stop hstop info hinfo with ⟨s, hs, _⟩
      exact ⟨s, hs⟩

theorem rider_display_name_precedence_witness :
    (displayStudent { id := "s9", student_name := none,
                      english_first_name := some "John", parents := none }).name = "John" ∧
    (displayStudent { id := "s9", student_name := none,
                      english_first_name := some "John", parents := none }).phone = "" :=
  ⟨(rider_display_name_precedence.1
      { id := "s9", student_name := none, english_first_name := some "John",
        parents := none }).2.1 rfl rfl,
   (rider_display_name_precedence.1
      { id := "s9", student_name := none, english_first_name := some "John",
        parents := none }).2.2.2 rfl⟩
